import Mathlib

/-!
Verification of the request-routing and lifecycle layer of
`repeater/web/http_server.py`: the bounded log capture buffer (`LogBuffer`),
the SPA route dispatcher (`StatsApp.index` / `StatsApp.default`) and the
static-asset route-table assembly in `HTTPStatsServer.start`.

The Python code is shallowly embedded: the `deque(maxlen=...)` ring buffer
becomes a pure list transformer, the dispatcher becomes a total function
from (read outcome, method, path segments, query parameters) to a tagged
response, and the CherryPy config dict built in `start` becomes an assoc
list in insertion order.
-/

/-- One stored log entry, as built in `LogBuffer.emit`:
`{"message": msg, "timestamp": ..., "level": record.levelname}`. -/
structure LogEntry where
  message : String
  timestamp : String
  level : String
deriving DecidableEq

/-- Appending one element to a `deque(maxlen := cap)` as in
`self.logs.append(...)` (`LogBuffer.emit`): when the deque is below its
maximum length the element is appended; otherwise appending discards the
corresponding number of items from the opposite (oldest) end. -/
def insertLog (cap : Nat) (buf : List LogEntry) (e : LogEntry) : List LogEntry :=
  if buf.length < cap then buf ++ [e] else (buf ++ [e]).drop 1

/-- Default capacity of the buffer: `LogBuffer(max_lines=100)`. -/
def defaultMaxLines : Nat := 100

/-- Running a sequence of inserts from the empty buffer, as a fresh
`LogBuffer` receives emitted records one by one. -/
def runInserts (cap : Nat) (entries : List LogEntry) : List LogEntry :=
  entries.foldl (insertLog cap) []

lemma insertLog_eq_drop (cap : Nat) (buf : List LogEntry) (e : LogEntry)
    (h : buf.length ≤ cap) :
    insertLog cap buf e = (buf ++ [e]).drop (buf.length + 1 - cap) := by
  unfold insertLog
  split
  · have h0 : buf.length + 1 - cap = 0 := by omega
    rw [h0, List.drop_zero]
  · have h1 : buf.length + 1 - cap = 1 := by omega
    rw [h1]

lemma length_insertLog (cap : Nat) (buf : List LogEntry) (e : LogEntry)
    (h : buf.length ≤ cap) :
    (insertLog cap buf e).length = min (buf.length + 1) cap := by
  unfold insertLog
  split
  · simp; omega
  · simp; omega

lemma foldl_insertLog (cap : Nat) :
    ∀ (entries : List LogEntry) (buf : List LogEntry), buf.length ≤ cap →
      entries.foldl (insertLog cap) buf =
        (buf ++ entries).drop (buf.length + entries.length - cap)
  | [], buf, h => by
    simp [Nat.sub_eq_zero_of_le h]
  | e :: rest, buf, h => by
    rw [List.foldl_cons]
    have hlen : (insertLog cap buf e).length ≤ cap := by
      rw [length_insertLog cap buf e h]; omega
    rw [foldl_insertLog cap rest (insertLog cap buf e) hlen]
    rw [length_insertLog cap buf e h]
    rw [insertLog_eq_drop cap buf e h]
    by_cases hc : buf.length < cap
    · have h0 : buf.length + 1 - cap = 0 := by omega
      have hmin : min (buf.length + 1) cap = buf.length + 1 := by omega
      rw [h0, List.drop_zero, hmin, List.append_assoc, List.singleton_append]
      congr 1
      simp; omega
    · have hbc : buf.length = cap := by omega
      have h1 : buf.length + 1 - cap = 1 := by omega
      have hmin : min (buf.length + 1) cap = cap := by omega
      rw [h1, hmin]
      have hsplit : (buf ++ [e]).drop 1 ++ rest = ((buf ++ [e]) ++ rest).drop 1 := by
        cases buf with
        | nil => simp
        | cons b bs => simp
      rw [hsplit, List.drop_drop, List.append_assoc, List.singleton_append]
      congr 1
      simp; omega

/-- C1: for every sequence of N inserts into the log capture buffer with
capacity C, the stored sequence has length `min N C` and equals the last C
inserted entries in insertion order (the suffix obtained by dropping the
first `N - C` entries), so the length never exceeds the capacity and each
insert past capacity displaces exactly the oldest entry. -/
theorem logBuffer_ring_fifo (cap : Nat) (entries : List LogEntry) :
    (runInserts cap entries).length = min entries.length cap ∧
    runInserts cap entries = entries.drop (entries.length - cap) := by
  have h := foldl_insertLog cap entries [] (by simp)
  simp only [List.nil_append, List.length_nil, Nat.zero_add] at h
  unfold runInserts
  rw [h]
  constructor
  · rw [List.length_drop]; omega
  · rfl

/-- Error raised by `cherrypy.HTTPError(status, message)`. -/
structure HTTPError where
  status : Nat
  message : String
deriving DecidableEq

/-- Outcome of the attempt to read `index.html` from the web root in
`StatsApp.index`: the file's content, a `FileNotFoundError`, or any other
exception carrying its own detail text. -/
inductive ReadResult where
  | ok (content : String)
  | fileNotFound
  | ioError (detail : String)
deriving DecidableEq

/-- The body of `StatsApp.index`: return the file content on success,
translate `FileNotFoundError` into `HTTPError(404, ...)` with the
remediation hint, and translate any other exception into the constant
`HTTPError(500, "Internal server error")` (the exception detail is only
logged, never placed in the response). -/
def serveIndex : ReadResult → Except HTTPError String
  | .ok s => .ok s
  | .fileNotFound =>
      .error ⟨404, "Application not found. Please build the frontend first."⟩
  | .ioError _ => .error ⟨500, "Internal server error"⟩

/-- Response produced by the `StatsApp.default` dispatcher: the empty string
returned for OPTIONS, the `cherrypy.NotFound` signal that lets the request
fall through to other routing, a served document body, or an `HTTPError`
page. -/
inductive Response where
  | empty
  | notFoundSignal
  | content (s : String)
  | httpError (status : Nat) (message : String)
deriving DecidableEq

/-- The body of `StatsApp.default(*args, **kwargs)`: answer OPTIONS with an
empty body first; then raise `cherrypy.NotFound` when the first path
segment is `api`; otherwise serve `self.index()`. The keyword arguments
(query parameters) are accepted and never read. -/
def StatsApp.default (r : ReadResult) (method : String) (args : List String)
    (kwargs : List (String × String)) : Response :=
  if method = "OPTIONS" then Response.empty
  else if args.head? = some "api" then Response.notFoundSignal
  else
    match serveIndex r with
    | .ok s => Response.content s
    | .error e => Response.httpError e.status e.message

/-- C8: serving the SPA entry document turns a missing file into a 404 with
the human-readable remediation hint, turns every other read failure into
the constant 500 response whose message is independent of the failure
detail (nothing from the filesystem leaks), and a raw failure outcome never
appears as a success value. -/
theorem serveIndex_error_taxonomy :
    serveIndex ReadResult.fileNotFound =
      Except.error ⟨404, "Application not found. Please build the frontend first."⟩ ∧
    (∀ d : String, serveIndex (ReadResult.ioError d) =
      Except.error ⟨500, "Internal server error"⟩) ∧
    (∀ d₁ d₂ : String,
      serveIndex (ReadResult.ioError d₁) = serveIndex (ReadResult.ioError d₂)) := by
  refine ⟨rfl, fun d => rfl, fun d₁ d₂ => rfl⟩

/-- C2 counterexample: an OPTIONS request whose first path segment is `api`
is answered by the dispatcher with an empty synthesized response, not with
the not-handled-here signal, because the pre-flight short-circuit runs
before the API-prefix check. -/
theorem api_passthrough_options_counterexample :
    StatsApp.default (ReadResult.ok "<html>OK</html>") "OPTIONS" ["api", "foo"] [] =
      Response.empty ∧
    Response.empty ≠ Response.notFoundSignal := by
  exact ⟨rfl, by decide⟩

/-- C2 (amended): for every request whose method is not OPTIONS and whose
first path segment is `api`, the dispatcher signals not-handled-here and
never answers with the SPA document or any other synthesized body. -/
theorem api_passthrough (r : ReadResult) (method : String) (args : List String)
    (kwargs : List (String × String))
    (hm : method ≠ "OPTIONS") (ha : args.head? = some "api") :
    StatsApp.default r method args kwargs = Response.notFoundSignal ∧
    ∀ s : String, StatsApp.default r method args kwargs ≠ Response.content s := by
  unfold StatsApp.default
  rw [if_neg hm, if_pos ha]
  exact ⟨rfl, fun s h => Response.noConfusion h⟩

/-- C2 witness: the amended theorem at the concrete request
`GET /api/stats`. -/
theorem api_passthrough_witness :
    StatsApp.default (ReadResult.ok "<html>OK</html>") "GET" ["api", "stats"] [] =
      Response.notFoundSignal ∧
    ∀ s : String,
      StatsApp.default (ReadResult.ok "<html>OK</html>") "GET" ["api", "stats"] [] ≠
        Response.content s :=
  api_passthrough (ReadResult.ok "<html>OK</html>") "GET" ["api", "stats"] []
    (by decide) (by decide)

/-- C3: for every request whose first path segment is not `api` and whose
method is not OPTIONS — the empty path, deep paths, paths naming
non-existent files — the dispatcher serves the SPA entry document when it
is readable, and two such requests always receive identical responses
whatever the read outcome. -/
theorem spa_fallback (r : ReadResult) (s method method' : String)
    (args args' : List String) (kwargs kwargs' : List (String × String))
    (hm : method ≠ "OPTIONS") (hm' : method' ≠ "OPTIONS")
    (ha : args.head? ≠ some "api") (ha' : args'.head? ≠ some "api") :
    (r = ReadResult.ok s → StatsApp.default r method args kwargs = Response.content s) ∧
    StatsApp.default r method args kwargs = StatsApp.default r method' args' kwargs' := by
  unfold StatsApp.default
  rw [if_neg hm, if_neg hm', if_neg ha, if_neg ha']
  exact ⟨fun hr => by rw [hr]; rfl, rfl⟩

/-- C3 witness: the theorem at the root path and a deep non-existent path
with the entry document present. -/
theorem spa_fallback_witness :
    ((ReadResult.ok "<html>OK</html>" : ReadResult) = ReadResult.ok "<html>OK</html>" →
      StatsApp.default (ReadResult.ok "<html>OK</html>") "GET" [] [] =
        Response.content "<html>OK</html>") ∧
    StatsApp.default (ReadResult.ok "<html>OK</html>") "GET" [] [] =
      StatsApp.default (ReadResult.ok "<html>OK</html>") "POST"
        ["deep", "nested", "path"] [("q", "1")] :=
  spa_fallback (ReadResult.ok "<html>OK</html>") "<html>OK</html>" "GET" "POST"
    [] ["deep", "nested", "path"] [] [("q", "1")]
    (by decide) (by decide) (by decide) (by decide)

/-- C4: every OPTIONS request, whatever its path (the API namespace
included) and whatever the state of the entry document, is answered
immediately with the empty success response; in particular it is never the
not-handled-here signal that would let it reach the API delegate's
routing. -/
theorem options_short_circuit (r : ReadResult) (args : List String)
    (kwargs : List (String × String)) :
    StatsApp.default r "OPTIONS" args kwargs = Response.empty ∧
    StatsApp.default r "OPTIONS" args kwargs ≠ Response.notFoundSignal := by
  exact ⟨rfl, fun h => Response.noConfusion h⟩

/-- C10: the dispatcher never reads the keyword arguments, so two requests
to the same non-API, non-OPTIONS path that differ only in their query
parameters receive identical responses. -/
theorem query_params_ignored (r : ReadResult) (method : String) (args : List String)
    (kwargs₁ kwargs₂ : List (String × String))
    (hm : method ≠ "OPTIONS") (ha : args.head? ≠ some "api") :
    StatsApp.default r method args kwargs₁ = StatsApp.default r method args kwargs₂ := by
  rfl

/-- C10 witness: the theorem at a concrete path with two different query
parameter lists. -/
theorem query_params_ignored_witness :
    StatsApp.default (ReadResult.ok "<html>OK</html>") "GET" ["dashboard"]
      [("a", "1")] =
    StatsApp.default (ReadResult.ok "<html>OK</html>") "GET" ["dashboard"]
      [("b", "2"), ("c", "3")] :=
  query_params_ignored (ReadResult.ok "<html>OK</html>") "GET" ["dashboard"]
    [("a", "1")] [("b", "2"), ("c", "3")] (by decide) (by decide)

/-- One value of the CherryPy config dict built in `HTTPStatsServer.start`:
the root entry with its `tools.staticfile.content_types` rules, a
`tools.staticfile` single-file entry, or a `tools.staticdir` directory
entry with its `tools.staticdir.content_types` rules. Each carries the
`cors.expose.on` flag that `start` adds when CORS is enabled. -/
inductive RouteEntry where
  | root (contentTypes : List (String × String)) (corsExpose : Bool)
  | staticFile (filename : String) (corsExpose : Bool)
  | staticDir (dir : String) (contentTypes : List (String × String)) (corsExpose : Bool)
deriving DecidableEq

/-- Content-type rules of the `"/"` entry:
`{'js': ..., 'css': ..., 'html': ..., 'svg': ..., 'txt': ...}`. -/
def rootContentTypes : List (String × String) :=
  [("js", "application/javascript"), ("css", "text/css"),
   ("html", "text/html; charset=utf-8"), ("svg", "image/svg+xml"),
   ("txt", "text/plain")]

/-- Content-type rules of the `"/assets"` and `"/_next"` entries:
`{'js': ..., 'css': ..., 'map': 'application/json'}`. -/
def staticDirContentTypes : List (String × String) :=
  [("js", "application/javascript"), ("css", "text/css"),
   ("map", "application/json")]

/-- Setting `cors.expose.on = True` on one config entry. -/
def setCors : RouteEntry → RouteEntry
  | .root cts _ => .root cts true
  | .staticFile f _ => .staticFile f true
  | .staticDir d cts _ => .staticDir d cts true

/-- The config dict assembled by `HTTPStatsServer.start`, keyed by URL
prefix in insertion order: always `"/"` and `"/favicon.ico"`, then
`"/assets"` only if `os.path.isdir(assets_dir)`, then `"/_next"` only if
`os.path.isdir(next_dir)`; when CORS is enabled every entry that was
mounted gets `cors.expose.on = True`. -/
def buildConfig (htmlDir : String) (assetsExists nextExists corsEnabled : Bool) :
    List (String × RouteEntry) :=
  let base : List (String × RouteEntry) :=
    [("/", RouteEntry.root rootContentTypes false),
     ("/favicon.ico", RouteEntry.staticFile (htmlDir ++ "/favicon.ico") false)]
  let base :=
    if assetsExists then
      base ++ [("/assets",
        RouteEntry.staticDir (htmlDir ++ "/assets") staticDirContentTypes false)]
    else base
  let base :=
    if nextExists then
      base ++ [("/_next",
        RouteEntry.staticDir (htmlDir ++ "/_next") staticDirContentTypes false)]
    else base
  if corsEnabled then base.map (fun p => (p.1, setCors p.2)) else base

/-- URL prefixes of a config, in insertion order. -/
def routeKeys (t : List (String × RouteEntry)) : List String := t.map Prod.fst

/-- Look up the entry mounted at a given URL prefix. -/
def routeLookup (t : List (String × RouteEntry)) (k : String) : Option RouteEntry :=
  (t.find? (fun p => p.1 == k)).map Prod.snd

/-- Does any entry of the config carry the given content-type rule? -/
def hasContentTypeRule (t : List (String × RouteEntry)) (ext mime : String) : Bool :=
  t.any fun p =>
    match p.2 with
    | .root cts _ => cts.contains (ext, mime)
    | .staticFile _ _ => false
    | .staticDir _ cts _ => cts.contains (ext, mime)

/-- C6: the route table contains an `/assets` mapping exactly when the
assets directory exists, a `/_next` mapping exactly when that directory
exists, and when neither exists it holds exactly the root and favicon
mappings; absence of either directory is not an error (the table is still
built). -/
theorem conditional_static_mounts (htmlDir : String) (a n cors : Bool) :
    (("/assets" ∈ routeKeys (buildConfig htmlDir a n cors)) ↔ a = true) ∧
    (("/_next" ∈ routeKeys (buildConfig htmlDir a n cors)) ↔ n = true) ∧
    routeKeys (buildConfig htmlDir false false cors) = ["/", "/favicon.ico"] := by
  cases a <;> cases n <;> cases cors <;>
    simp [buildConfig, routeKeys]

/-- C7 counterexample: when neither asset directory exists, the route table
carries no `map → application/json` content-type rule anywhere — that rule
lives only in the conditional `/assets` and `/_next` entries, so it is not
always included. -/
theorem map_rule_counterexample :
    hasContentTypeRule (buildConfig "webroot" false false false)
      "map" "application/json" = false := by
  rfl

/-- C7 (amended): for every webRoot the route table always includes the
root index fallback with its content-type rules (`js`, `css`, `html`,
`svg`, `txt`) and the favicon file mapping; the `map → application/json`
rule is included in the `/assets` and `/_next` static-directory entries
whenever either of those is mounted. -/
theorem always_mounted_routes (htmlDir : String) (a n cors : Bool) :
    routeLookup (buildConfig htmlDir a n cors) "/" =
      some (RouteEntry.root rootContentTypes cors) ∧
    routeLookup (buildConfig htmlDir a n cors) "/favicon.ico" =
      some (RouteEntry.staticFile (htmlDir ++ "/favicon.ico") cors) ∧
    hasContentTypeRule (buildConfig htmlDir a n cors)
      "js" "application/javascript" = true ∧
    hasContentTypeRule (buildConfig htmlDir a n cors) "css" "text/css" = true ∧
    hasContentTypeRule (buildConfig htmlDir a n cors)
      "html" "text/html; charset=utf-8" = true ∧
    hasContentTypeRule (buildConfig htmlDir a n cors) "svg" "image/svg+xml" = true ∧
    hasContentTypeRule (buildConfig htmlDir a n cors) "txt" "text/plain" = true ∧
    (a = true → routeLookup (buildConfig htmlDir a n cors) "/assets" =
      some (RouteEntry.staticDir (htmlDir ++ "/assets") staticDirContentTypes cors)) ∧
    (n = true → routeLookup (buildConfig htmlDir a n cors) "/_next" =
      some (RouteEntry.staticDir (htmlDir ++ "/_next") staticDirContentTypes cors)) ∧
    (a = true ∨ n = true → hasContentTypeRule (buildConfig htmlDir a n cors)
      "map" "application/json" = true) := by
  cases a <;> cases n <;> cases cors <;>
    simp [buildConfig, routeLookup, hasContentTypeRule, rootContentTypes,
      staticDirContentTypes, setCors, List.find?, List.any]

/-- The body of `LogBuffer.emit`: format the record and append the entry to
the deque; on any exception fall into `self.handleError(record)`, which
swallows the failure and leaves the buffer untouched. The formatting
outcome of one record is either the built entry or the raised exception's
text. -/
def emit (cap : Nat) (buf : List LogEntry) (r : Except String LogEntry) :
    List LogEntry :=
  match r with
  | .ok e => insertLog cap buf e
  | .error _ => buf

lemma foldl_emit (cap : Nat) :
    ∀ (records : List (Except String LogEntry)) (buf : List LogEntry),
      records.foldl (emit cap) buf =
        (records.filterMap Except.toOption).foldl (insertLog cap) buf := by
  intro records
  induction records with
  | nil => intro buf; rfl
  | cons r rest ih =>
    intro buf
    cases r with
    | ok e =>
      rw [List.foldl_cons]
      have hfm : (Except.ok e :: rest).filterMap Except.toOption =
          e :: rest.filterMap Except.toOption := by
        simp [List.filterMap_cons, Except.toOption]
      rw [hfm, List.foldl_cons]
      exact ih (insertLog cap buf e)
    | error m =>
      rw [List.foldl_cons]
      have hfm : (Except.error m :: rest).filterMap Except.toOption =
          rest.filterMap Except.toOption := by
        simp [List.filterMap_cons, Except.toOption]
      rw [hfm]
      exact ih buf

/-- C9: a record whose formatting fails leaves the buffer exactly as it
was (the failure is swallowed, never raised to the emitter, since `emit`
is a total function), and a whole emission sequence with failures
interspersed stores exactly what the successfully formatted records alone
would have stored — each failure is isolated to its own entry. -/
theorem emit_isolates_failures (cap : Nat)
    (records : List (Except String LogEntry)) :
    records.foldl (emit cap) [] =
      runInserts cap (records.filterMap Except.toOption) ∧
    (∀ (buf : List LogEntry) (msg : String),
      emit cap buf (Except.error msg) = buf) :=
  ⟨foldl_emit cap records [], fun _ _ => rfl⟩

/-- Heap of list-valued cells. It makes aliasing between the internal
deque and the values handed to callers explicit, so that structural
independence of a returned snapshot is statable. -/
structure Store where
  cells : List (List LogEntry)
deriving DecidableEq

/-- Read the list a cell holds (empty for a dangling reference). -/
def readCell (s : Store) (r : Nat) : List LogEntry := (s.cells[r]?).getD []

/-- Overwrite the list a cell holds. -/
def writeCell (s : Store) (r : Nat) (v : List LogEntry) : Store :=
  ⟨s.cells.set r v⟩

/-- Allocate a fresh cell holding a value: the new store and the fresh
reference. -/
def allocCell (s : Store) (v : List LogEntry) : Store × Nat :=
  (⟨s.cells ++ [v]⟩, s.cells.length)

/-- Modelled from the spec: the snapshot accessor of the log buffer lives
in the API endpoints module (`api_endpoints.py`), which is not among the
repository files here; per the spec it "returns a point-in-time copy
(oldest to newest)" and "must not expose internal storage by reference",
so it allocates a fresh cell holding a copy of the buffer cell's current
contents. -/
def snapshot (s : Store) (buf : Nat) : Store × Nat :=
  allocCell s (readCell s buf)

/-- Recording one entry into the buffer cell: the in-place
`self.logs.append(...)` of `LogBuffer.emit`, on the heap model. -/
def record (cap : Nat) (s : Store) (buf : Nat) (e : LogEntry) : Store :=
  writeCell s buf (insertLog cap (readCell s buf) e)

/-- C5: a snapshot call returns a reference distinct from the buffer's,
holding the buffer's entries at call time in stored (oldest-to-newest)
order, and recording an entry after the snapshot call leaves the
previously returned snapshot unchanged. -/
theorem snapshot_independent (cap : Nat) (s : Store) (buf : Nat) (e : LogEntry)
    (hbuf : buf < s.cells.length) :
    (snapshot s buf).2 ≠ buf ∧
    readCell (snapshot s buf).1 (snapshot s buf).2 = readCell s buf ∧
    readCell (record cap (snapshot s buf).1 buf e) (snapshot s buf).2 =
      readCell s buf := by
  refine ⟨?_, ?_, ?_⟩
  · show s.cells.length ≠ buf
    omega
  · show ((s.cells ++ [readCell s buf])[s.cells.length]?).getD [] = readCell s buf
    rw [List.getElem?_concat_length]
    rfl
  · simp only [record, writeCell, snapshot, allocCell, readCell]
    rw [List.getElem?_set_ne (by omega : buf ≠ s.cells.length),
      List.getElem?_concat_length]
    rfl

/-- C5 witness: the theorem at a one-cell store holding one entry, with a
record of a second entry after the snapshot. -/
theorem snapshot_independent_witness :
    (snapshot ⟨[[⟨"m1", "t1", "INFO"⟩]]⟩ 0).2 ≠ 0 ∧
    readCell (snapshot ⟨[[⟨"m1", "t1", "INFO"⟩]]⟩ 0).1
        (snapshot ⟨[[⟨"m1", "t1", "INFO"⟩]]⟩ 0).2 =
      readCell ⟨[[⟨"m1", "t1", "INFO"⟩]]⟩ 0 ∧
    readCell
        (record 100 (snapshot ⟨[[⟨"m1", "t1", "INFO"⟩]]⟩ 0).1 0
          ⟨"m2", "t2", "ERROR"⟩)
        (snapshot ⟨[[⟨"m1", "t1", "INFO"⟩]]⟩ 0).2 =
      readCell ⟨[[⟨"m1", "t1", "INFO"⟩]]⟩ 0 :=
  snapshot_independent 100 ⟨[[⟨"m1", "t1", "INFO"⟩]]⟩ 0 ⟨"m2", "t2", "ERROR"⟩
    (by decide)
